import Mathlib

/-
  Verification development for the rs-drive-example explorer.

  The definitions below are a shallow embedding of the blockchain explorer
  (src/blockchain/mod.rs, src/blockchain/masternode.rs,
  src/blockchain/strategy.rs).  Machine integers are modelled as Nat/Int with
  explicit reduction modulo 2^w where wrap-around matters.  All ambient
  randomness (thread_rng draws) and every outcome produced by the external
  drive/platform collaborator (block_begin, document insertion fees,
  block_end, commit_transaction) are supplied by an explicit oracle
  structure Env whose entries are consumed in program order; a Rust panic
  (expect / rand assertion) is modelled as an Except error that aborts the
  run.  The Explorer state struct itself is declared in the crate entry file
  that is not among the provided sources; its fields are reconstructed from
  their uses inside the provided modules.
-/

set_option linter.unusedVariables false

namespace DriveExplorer

/-- Masternode (src/blockchain/masternode.rs): only carries a 32-byte proposer
    identifier, modelled as an opaque natural number. -/
structure Masternode where
  pro_tx_hash : Nat
  deriving DecidableEq, Repr

/-- Frequency (src/blockchain/strategy.rs): a half-open u16 range of insertion
    counts, modelled as a pair (low, high), and an optional chance per block.
    The chance is an f64 in the source; it is modelled as a rational, exact for
    the binary64-representable values the claims concern. -/
structure Frequency where
  times_per_block_range : Nat × Nat
  chance_per_block : Option Rat
  deriving DecidableEq, Repr

/-- Contract: external schema object; only its set of document-type names is
    observable to the explorer code under verification. -/
structure Contract where
  document_types : List String
  deriving DecidableEq, Repr

/-- Model of Contract.document_type_for_name: succeeds exactly when the named
    document type exists in the contract. -/
def Contract.document_type_for_name (c : Contract) (name : String) : Option String :=
  if name ∈ c.document_types then some name else none

/-- DocumentOp (src/blockchain/strategy.rs): a contract plus one of its
    document types. -/
structure DocumentOp where
  contract : Contract
  document_type : String
  deriving DecidableEq, Repr

/-- Strategy (src/blockchain/strategy.rs): an ordered list of operations. -/
structure Strategy where
  operations : List (DocumentOp × Frequency)
  deriving DecidableEq, Repr

/-- Block: height and millisecond timestamp, both u64 in the source. -/
structure Block where
  height : Nat
  time_ms : Nat
  deriving DecidableEq, Repr

/-- FeesAggregate (dash_abci message struct): two u64 counters. -/
structure FeesAggregate where
  storage_fees : Nat
  processing_fees : Nat
  deriving DecidableEq, Repr

/-- Explorer state, reconstructed from the field uses in the provided modules:
    masternodes (an insertion-ordered map, modelled as a list), the contract
    and strategy stores (association lists), the currently loaded strategy,
    the chain cursor last_block, and the tracked epoch index.  The
    persisted_strategies field models the external strategy-store resource
    written by save_available_strategies. -/
structure Explorer where
  masternodes : List Masternode
  available_contracts : List (String × Contract)
  available_strategies : List (String × Strategy)
  current_execution_strategy : Option (String × Strategy)
  last_block : Option Block
  current_epoch : Option Nat
  persisted_strategies : List (String × Strategy)
  deriving DecidableEq, Repr

/-- Insert-or-overwrite for an association list, preserving insertion order as
    an IndexMap / BTreeMap entry update does for an existing key. -/
def alist_insert {α : Type} (l : List (String × α)) (k : String) (v : α) :
    List (String × α) :=
  match l with
  | [] => [(k, v)]
  | (k0, v0) :: rest =>
    if k0 = k then (k, v) :: rest else (k0, v0) :: alist_insert rest k v

/-- Lookup in an association list. -/
def alist_lookup {α : Type} (l : List (String × α)) (k : String) : Option α :=
  match l with
  | [] => none
  | (k0, v0) :: rest => if k0 = k then some v0 else alist_lookup rest k

/-- Oracle for ambient randomness and external-collaborator outcomes, consumed
    in program order: u64 draws backing gen_bool, draws backing gen_range,
    per-insertion results of drive.add_document_for_contract (none models a
    failed insertion), per-block outcomes of platform.block_begin,
    platform.block_end (is_epoch_change, current_epoch_index; none models
    failure) and drive.commit_transaction. -/
structure Env where
  bool_draws : List Nat
  range_draws : List Nat
  insert_results : List (Option (Int × Nat))
  begin_results : List Bool
  end_results : List (Option (Bool × Nat))
  commit_results : List Bool
  deriving DecidableEq, Repr

/-- Fatal abort causes: each models a panic (an expect or a rand assertion)
    that terminates the simulation run. oracleExhausted is the modelling
    artefact of an Env that supplies too few entries. -/
inductive StepError where
  | emptyMasternodeRegistry
  | oracleExhausted
  | invalidBernoulliChance
  | emptyCountRange
  | insertFailed
  | beginFailed
  | endFailed
  | commitFailed
  deriving DecidableEq, Repr

/-- User-input errors: reported to the operator, command abandoned, state kept. -/
inductive UserError where
  | wrongArgCount
  | notAnInteger
  | outOfRange
  | noLoadedStrategy
  | noAvailableStrategies
  | unknownStrategyAlias
  | unknownContractAlias
  | unknownDocumentType
  | badRange
  | badChance
  deriving DecidableEq, Repr

/-- Modulus of u64 arithmetic. -/
def U64_MOD : Nat := 2 ^ 64

/-- Largest u64 value. -/
def U64_MAX : Nat := 2 ^ 64 - 1

/-- Rust cast of an i64 to u64 (two's-complement reinterpretation): for
    negative inputs this wraps around, e.g. -1 becomes 2^64 - 1. -/
def i64_as_u64 (i : Int) : Nat := (i % (2 ^ 64 : Int)).toNat

/-- Model of rand Rng.gen_bool p as used at src/blockchain/mod.rs lines 62-66:
    Bernoulli construction asserts 0 <= p <= 1 (outside panics), p = 1 is the
    always-true special case, and otherwise the trial compares a uniform u64
    draw against the scaled threshold p * 2^64; the comparison
    draw < p * 2^64 is stated with the denominator of p cleared, so that it
    computes over the integers (p.den is positive, so the two forms agree). -/
def gen_bool (chance : Rat) (draw : Nat) : Except StepError Bool :=
  if chance < 0 ∨ 1 < chance then .error .invalidBernoulliChance
  else if chance = 1 then .ok true
  else .ok (decide ((draw : Int) * chance.den < chance.num * ((U64_MOD : Nat) : Int)))

/-- Model of rand Rng.gen_range lo..hi on integers: panics on an empty range
    (lo >= hi), otherwise returns a value in [lo, hi) determined by the draw. -/
def gen_range (lo hi : Nat) (draw : Nat) : Except StepError Nat :=
  if lo < hi then .ok (lo + draw % (hi - lo)) else .error .emptyCountRange

/-- Firing decision for one operation in one block (src/blockchain/mod.rs
    lines 62-66): chance_per_block = none always fires and consumes no draw;
    some chance runs one Bernoulli trial on the next u64 draw. -/
def op_fires (freq : Frequency) (env : Env) : Except StepError (Bool × Env) :=
  match freq.chance_per_block with
  | none => .ok (true, env)
  | some chance =>
    match env.bool_draws with
    | [] => .error .oracleExhausted
    | draw :: rest =>
      match gen_bool chance draw with
      | .error err => .error err
      | .ok b => .ok (b, { env with bool_draws := rest })

/-- Fee accumulation step (src/blockchain/mod.rs lines 95-96): the i64
    storage fee is cast to u64 and both counters are updated with plain u64
    addition, i.e. addition modulo 2^64. -/
def fees_add (fees : FeesAggregate) (storage_fee : Int) (processing_fee : Nat) :
    FeesAggregate :=
  { storage_fees := (fees.storage_fees + i64_as_u64 storage_fee) % U64_MOD,
    processing_fees := (fees.processing_fees + processing_fee) % U64_MOD }

/-- Inner document loop of execute_current_strategy: inserts count random
    documents, each consuming one oracle insertion result; a failed insertion
    (none) models the expect panic.  The list of fee pairs actually returned
    by the performed insertions is accumulated in trace. -/
def insert_documents (count : Nat) (fees : FeesAggregate) (env : Env)
    (trace : List (Int × Nat)) :
    Except StepError (FeesAggregate × Env × List (Int × Nat)) :=
  match count with
  | 0 => .ok (fees, env, trace)
  | n + 1 =>
    match env.insert_results with
    | [] => .error .oracleExhausted
    | none :: _ => .error .insertFailed
    | some (storage_fee, processing_fee) :: rest =>
      insert_documents n (fees_add fees storage_fee processing_fee)
        { env with insert_results := rest }
        (trace ++ [(storage_fee, processing_fee)])

/-- Outer operation loop of execute_current_strategy (src/blockchain/mod.rs
    lines 60-99): for each (op, frequency) in list order, decide whether it
    fires, draw the document count from times_per_block_range, and insert the
    documents.  An empty count range panics inside gen_range before any draw
    is taken, so that case is surfaced before consuming the oracle. -/
def run_operations (ops : List (DocumentOp × Frequency)) (fees : FeesAggregate)
    (env : Env) (trace : List (Int × Nat)) :
    Except StepError (FeesAggregate × Env × List (Int × Nat)) :=
  match ops with
  | [] => .ok (fees, env, trace)
  | (op, freq) :: rest =>
    match op_fires freq env with
    | .error err => .error err
    | .ok (happens_this_block, env1) =>
      if happens_this_block then
        if freq.times_per_block_range.1 < freq.times_per_block_range.2 then
          match env1.range_draws with
          | [] => .error .oracleExhausted
          | draw :: draws =>
            match gen_range freq.times_per_block_range.1
                freq.times_per_block_range.2 draw with
            | .error err => .error err
            | .ok count =>
              match insert_documents count fees
                  { env1 with range_draws := draws } trace with
              | .error err => .error err
              | .ok (fees2, env3, trace2) => run_operations rest fees2 env3 trace2
        else .error .emptyCountRange
      else run_operations rest fees env1 trace

/-- Model of Explorer::execute_current_strategy (src/blockchain/mod.rs lines
    47-101): the fees aggregate starts at (0, 0); with no loaded strategy the
    block performs zero operations.  The epoch index is forwarded to the
    storage flags of the external insertions, whose outcomes the oracle
    already fixes.  Also returns the list of fee pairs returned by the
    insertions performed in this block. -/
def execute_current_strategy (e : Explorer) (env : Env) (epoch_index : Nat) :
    Except StepError (FeesAggregate × Env × List (Int × Nat)) :=
  match e.current_execution_strategy with
  | none => .ok ({ storage_fees := 0, processing_fees := 0 }, env, [])
  | some (_alias, strategy) =>
    run_operations strategy.operations
      { storage_fees := 0, processing_fees := 0 } env []

/-- Model of Explorer::random_masternode (src/blockchain/masternode.rs lines
    19-25): gen_range over 0..len panics when the registry is empty; otherwise
    the next draw selects an index into the registry. -/
def random_masternode (e : Explorer) (env : Env) :
    Except StepError (Masternode × Env) :=
  match e.masternodes with
  | [] => .error .emptyMasternodeRegistry
  | m :: ms =>
    match env.range_draws with
    | [] => .error .oracleExhausted
    | draw :: rest =>
      .ok ((m :: ms).getD (draw % (m :: ms).length) m,
        { env with range_draws := rest })

/-- Model of Explorer::execute_block (src/blockchain/mod.rs lines 103-145):
    select a proposer, begin the block, apply the loaded strategy, end the
    block, commit the transaction, and only then advance last_block and, on an
    epoch-change signal, current_epoch.  A failure at any step returns the
    Explorer state exactly as it was when the panic occurred. -/
def execute_block (e : Explorer) (env : Env) (block : Block) :
    Option StepError × Explorer × Env :=
  match random_masternode e env with
  | .error err => (some err, e, env)
  | .ok (_masternode, env1) =>
    match env1.begin_results with
    | [] => (some .oracleExhausted, e, env1)
    | began :: brest =>
      let env2 := { env1 with begin_results := brest }
      if began = false then (some .beginFailed, e, env2)
      else
        match execute_current_strategy e env2 (e.current_epoch.getD 0) with
        | .error err => (some err, e, env2)
        | .ok (_fees, env3, _trace) =>
          match env3.end_results with
          | [] => (some .oracleExhausted, e, env3)
          | none :: _ => (some .endFailed, e, env3)
          | some (is_epoch_change, current_epoch_index) :: erest =>
            let env4 := { env3 with end_results := erest }
            match env4.commit_results with
            | [] => (some .oracleExhausted, e, env4)
            | committed :: crest =>
              let env5 := { env4 with commit_results := crest }
              if committed = false then (some .commitFailed, e, env5)
              else
                (none,
                 { e with
                    last_block := some block,
                    current_epoch :=
                      if is_epoch_change then some current_epoch_index
                      else e.current_epoch },
                 env5)

/-- Loop body of Explorer::execute_blocks: runs count consecutive blocks
    starting at the given height, each with time_ms = height * 100, stopping
    at the first fatal error.  The blocks successfully executed (committed)
    are collected in trace in execution order. -/
def execute_blocks_from (e : Explorer) (env : Env) (height count : Nat)
    (trace : List Block) : Option StepError × Explorer × Env × List Block :=
  match count with
  | 0 => (none, e, env, trace)
  | n + 1 =>
    match execute_block e env { height := height, time_ms := height * 100 } with
    | (some err, e1, env1) => (some err, e1, env1, trace)
    | (none, e1, env1) =>
      execute_blocks_from e1 env1 (height + 1) n
        (trace ++ [{ height := height, time_ms := height * 100 }])

/-- Model of Explorer::execute_blocks (src/blockchain/mod.rs lines 147-162):
    the starting block is last_block, or height 1 / time 100 when none exists,
    and the loop runs over height in current.height .. current.height + count. -/
def execute_blocks (e : Explorer) (env : Env) (count : Nat) :
    Option StepError × Explorer × Env × List Block :=
  let current_block := e.last_block.getD { height := 1, time_ms := 100 }
  execute_blocks_from e env current_block.height count []

/-- Blocks the execute_blocks loop header enumerates, as the unrolling of the
    loop: heights start, start+1, ..., start+count-1, each with
    time_ms = height * 100. -/
def planned_blocks (start count : Nat) : List Block :=
  match count with
  | 0 => []
  | n + 1 =>
    { height := start, time_ms := start * 100 } :: planned_blocks (start + 1) n

/-- Decimal digit value of a character. -/
def digit_value (c : Char) : Option Nat :=
  if c.isDigit then some (c.toNat - 48) else none

/-- Accumulating decimal parser: fails on any non-digit character. -/
def parse_digits (cs : List Char) (acc : Nat) : Option Nat :=
  match cs with
  | [] => some acc
  | c :: rest =>
    match digit_value c with
    | none => none
    | some d => parse_digits rest (acc * 10 + d)

/-- Model of the digit portion of str.parse for unsigned integers: an optional
    leading plus sign followed by at least one decimal digit. -/
def parse_nat_string (s : String) : Option Nat :=
  match s.toList with
  | [] => none
  | c :: rest =>
    if c = '+' then
      match rest with
      | [] => none
      | _ => parse_digits rest 0
    else parse_digits (c :: rest) 0

/-- Model of str.parse to usize (64-bit target): overflow is a parse error. -/
def parse_usize (s : String) : Option Nat :=
  match parse_nat_string s with
  | none => none
  | some v => if v < 2 ^ 64 then some v else none

/-- Model of str.parse to u16: overflow is a parse error. -/
def parse_u16 (s : String) : Option Nat :=
  match parse_nat_string s with
  | none => none
  | some v => if v < 2 ^ 16 then some v else none

/-- Fractional-part parser: digits after the decimal point, returned as a
    numerator and its power-of-ten denominator. -/
def parse_decimal_fraction (cs : List Char) (num den : Nat) :
    Option (Nat × Nat) :=
  match cs with
  | [] => some (num, den)
  | c :: rest =>
    match digit_value c with
    | none => none
    | some d => parse_decimal_fraction rest (num * 10 + d) (den * 10)

/-- Splitter on a character predicate, accumulating the current piece in
    reverse; mirrors String.split. -/
def split_chars (p : Char → Bool) : List Char → List Char → List String
  | [], cur => [String.mk cur.reverse]
  | c :: rest, cur =>
    if p c then String.mk cur.reverse :: split_chars p rest []
    else split_chars p rest (c :: cur)

/-- Unsigned decimal body of the float parser: digits, digits.digits,
    digits. or .digits. -/
def parse_f64_body (cs : List Char) : Option Rat :=
  match split_chars (fun c => c = '.') cs [] with
  | [ip] =>
    if ip.toList = [] then none
    else (parse_digits ip.toList 0).map (fun n => (n : Rat))
  | [ip, fp] =>
    if ip.toList = [] ∧ fp.toList = [] then none
    else
      match (if ip.toList = [] then some 0 else parse_digits ip.toList 0) with
      | none => none
      | some i =>
        if fp.toList = [] then some (i : Rat)
        else
          match parse_decimal_fraction fp.toList 0 1 with
          | none => none
          | some (num, den) => some ((i : Rat) + (num : Rat) / (den : Rat))
  | _ => none

/-- Model of str.parse to f64 for plain decimal literals, as rationals; exact
    on the binary64-representable decimal values the claims exercise. -/
def parse_f64 (s : String) : Option Rat :=
  match s.toList with
  | [] => none
  | '-' :: rest => (parse_f64_body rest).map (fun q => -q)
  | '+' :: rest => parse_f64_body rest
  | cs => parse_f64_body cs

/-- Model of str.split_whitespace: split on whitespace, dropping empty pieces. -/
def split_whitespace (s : String) : List String :=
  (split_chars (fun c => c.isWhitespace) s.toList []).filter (fun t => t ≠ "")

/-- Model of Explorer::prompt_execute_blocks (src/blockchain/mod.rs lines
    164-186): exactly one argument, parsed as usize and bounded by
    0 < value <= 10000, then execute_blocks runs; any user-input error leaves
    the state untouched and executes no block. -/
def prompt_execute_blocks (e : Explorer) (env : Env) (input : String) :
    Option UserError × Option StepError × Explorer × Env × List Block :=
  let args := split_whitespace input
  if args.length > 2 then (some .wrongArgCount, none, e, env, [])
  else if args.length < 2 then (some .wrongArgCount, none, e, env, [])
  else
    match parse_usize (args.getD 1 "") with
    | some value =>
      if 0 < value ∧ value ≤ 10000 then
        match execute_blocks e env value with
        | (err, e1, env1, trace) => (none, err, e1, env1, trace)
      else (some .outOfRange, none, e, env, [])
    | none => (some .notAnInteger, none, e, env, [])

/-- Model of Explorer::new_strategy (src/blockchain/strategy.rs lines
    152-155): replaces the loaded slot with a fresh empty strategy. -/
def new_strategy (e : Explorer) (alias_name : String) : Explorer :=
  { e with current_execution_strategy := some (alias_name, { operations := [] }) }

/-- Model of Explorer::load_strategy (src/blockchain/strategy.rs lines
    121-135): clones the stored strategy into the loaded slot. -/
def load_strategy (e : Explorer) (alias_name : String) : Option UserError × Explorer :=
  if e.available_strategies.length = 0 then (some .noAvailableStrategies, e)
  else
    match alist_lookup e.available_strategies alias_name with
    | none => (some .unknownStrategyAlias, e)
    | some strategy =>
      (none, { e with current_execution_strategy := some (alias_name, strategy) })

/-- Modelled from the spec: save_available_strategies is declared in the crate
    entry file that is not among the provided sources.  Per the spec (external
    interfaces, persistence of strategies), the alias-to-strategy map is
    rewritten in full to the external strategy-store resource on every
    mutating command; it is modelled as replacing the persisted snapshot with
    the current map. -/
def save_available_strategies (e : Explorer) : Explorer :=
  { e with persisted_strategies := e.available_strategies }

/-- Model of Explorer::dup_strategy (src/blockchain/strategy.rs lines
    172-185): persist the current loaded strategy under its existing alias,
    then make new alias the loaded strategy with a clone of the operations. -/
def dup_strategy (e : Explorer) (alias_name : String) : Option UserError × Explorer :=
  match e.current_execution_strategy with
  | none => (some .noLoadedStrategy, e)
  | some (previous_alias, strategy) =>
    let avail1 := alist_insert e.available_strategies previous_alias strategy
    let e1 := { e with available_strategies := avail1 }
    let e2 := save_available_strategies e1
    (none, { e2 with current_execution_strategy := some (alias_name, strategy) })

/-- Model of Explorer::save_strategy (src/blockchain/strategy.rs lines
    225-238): insert-or-overwrite the loaded strategy under its alias and
    persist the store. -/
def save_strategy (e : Explorer) : Option UserError × Explorer :=
  match e.current_execution_strategy with
  | none => (some .noLoadedStrategy, e)
  | some (alias_name, strategy) =>
    let avail1 := alist_insert e.available_strategies alias_name strategy
    let e1 := { e with available_strategies := avail1 }
    (none, save_available_strategies e1)

/-- Model of Explorer::add_strategy_op (src/blockchain/strategy.rs lines
    280-291): append the operation to the loaded strategy in place. -/
def add_strategy_op (e : Explorer) (document_op : DocumentOp)
    (frequency : Frequency) : Option UserError × Explorer :=
  match e.current_execution_strategy with
  | none => (some .noLoadedStrategy, e)
  | some (alias_name, strategy) =>
    let strategy1 : Strategy :=
      { operations := strategy.operations ++ [(document_op, frequency)] }
    (none, { e with current_execution_strategy := some (alias_name, strategy1) })

/-- Splitter on the two-character double-dot pattern, leftmost and
    non-overlapping; mirrors str.split with a double-dot pattern. -/
def split_on_double_dot : List Char → List Char → List String
  | [], cur => [String.mk cur.reverse]
  | '.' :: '.' :: rest, cur => String.mk cur.reverse :: split_on_double_dot rest []
  | c :: rest, cur => split_on_double_dot rest (c :: cur)

/-- Model of get_u16_range_from_input (src/blockchain/strategy.rs lines
    59-97): the input must split on the double dot into exactly two pieces,
    each parsing as a u16; no further validation is performed. -/
def get_u16_range_from_input (input : String) : Option (Nat × Nat) :=
  let tpb_args := split_on_double_dot input.toList []
  if tpb_args.length ≠ 2 then none
  else
    match parse_u16 (tpb_args.getD 0 ""), parse_u16 (tpb_args.getD 1 "") with
    | some tpb_start, some tpb_end => some (tpb_start, tpb_end)
    | _, _ => none

/-- Model of Explorer::prompt_add_op (src/blockchain/strategy.rs lines
    293-346): validates argument count, contract alias, document type, range
    syntax and chance syntax, then appends the operation to the loaded
    strategy. -/
def prompt_add_op (e : Explorer) (input : String) : Option UserError × Explorer :=
  let args := split_whitespace input
  if args.length > 5 then (some .wrongArgCount, e)
  else if args.length < 4 then (some .wrongArgCount, e)
  else
    let contract_alias := args.getD 1 ""
    let document_type_str := args.getD 2 ""
    let times_str := args.getD 3 ""
    match alist_lookup e.available_contracts contract_alias with
    | none => (some .unknownContractAlias, e)
    | some contract =>
      match contract.document_type_for_name document_type_str with
      | none => (some .unknownDocumentType, e)
      | some document_type =>
        match get_u16_range_from_input times_str with
        | none => (some .badRange, e)
        | some times_per_block_range =>
          match (if args.length = 5 then
              match parse_f64 (args.getD 4 "") with
              | some chance => Except.ok (some chance)
              | none => Except.error UserError.badChance
            else Except.ok none) with
          | .error err => (some err, e)
          | .ok chance_per_block =>
            add_strategy_op e
              { contract := contract, document_type := document_type }
              { times_per_block_range := times_per_block_range,
                chance_per_block := chance_per_block }

/-- Fold of the source's fee accumulation over a list of insertion results,
    starting from the zero aggregate. -/
def fees_of_list (l : List (Int × Nat)) : FeesAggregate :=
  l.foldl (fun fees p => fees_add fees p.1 p.2)
    { storage_fees := 0, processing_fees := 0 }

/-- Written after the wording of the spec, for comparison with the
    source-derived accumulation: saturating/non-negative addition of the fee
    pairs, clamping the storage counter into [0, U64_MAX]. -/
def sat_fees_add (fees : FeesAggregate) (storage_fee : Int)
    (processing_fee : Nat) : FeesAggregate :=
  { storage_fees := (min ((fees.storage_fees : Int) + storage_fee)
      ((U64_MAX : Int))).toNat,
    processing_fees := min (fees.processing_fees + processing_fee) U64_MAX }

/-- Spec-worded saturating fold over a list of insertion results. -/
def sat_fees_of_list (l : List (Int × Nat)) : FeesAggregate :=
  l.foldl (fun fees p => sat_fees_add fees p.1 p.2)
    { storage_fees := 0, processing_fees := 0 }

end DriveExplorer


namespace DriveExplorer

/-- Lookup after insert-or-overwrite at the same key. -/
theorem alist_lookup_insert_self {α : Type} (l : List (String × α)) (k : String)
    (v : α) : alist_lookup (alist_insert l k v) k = some v := by
  induction l with
  | nil => simp [alist_insert, alist_lookup]
  | cons hd tl ih =>
    obtain ⟨k0, v0⟩ := hd
    by_cases hk : k0 = k
    · simp [alist_insert, alist_lookup, hk]
    · simp [alist_insert, alist_lookup, hk, ih]

/-- Empty explorer with no masternodes and no committed block. -/
def c2_explorer : Explorer :=
  { masternodes := []
    available_contracts := []
    available_strategies := []
    current_execution_strategy := none
    last_block := none
    current_epoch := none
    persisted_strategies := [] }

/-- Oracle with no entries at all. -/
def c2_env : Env :=
  { bool_draws := []
    range_draws := []
    insert_results := []
    begin_results := []
    end_results := []
    commit_results := [] }

/-- C2: with an empty masternode registry, executing any positive number of
    blocks fails fatally at proposer selection before any state change, every
    single-block execution fails the same way, and an initially absent chain
    cursor stays absent. -/
theorem C2_empty_registry_fails_fatally (e : Explorer) (env : Env) (n : Nat)
    (hm : e.masternodes = []) :
    execute_blocks e env (n + 1) = (some .emptyMasternodeRegistry, e, env, []) ∧
    (∀ b, execute_block e env b = (some .emptyMasternodeRegistry, e, env)) ∧
    (e.last_block = none →
      (execute_blocks e env (n + 1)).2.1.last_block = none) := by
  have hb : ∀ b, execute_block e env b = (some .emptyMasternodeRegistry, e, env) := by
    intro b
    unfold execute_block random_masternode
    rw [hm]
  have hrun : execute_blocks e env (n + 1) =
      (some .emptyMasternodeRegistry, e, env, []) := by
    unfold execute_blocks execute_blocks_from
    simp [hb]
  exact ⟨hrun, hb, fun hl => by rw [hrun, hl]⟩

/-- C2 witness: the empty explorer satisfies the hypotheses, and the one-block
    run aborts with the proposer-selection error leaving the cursor at none. -/
theorem C2_empty_registry_fails_fatally_witness :
    c2_explorer.masternodes = [] ∧ c2_explorer.last_block = none ∧
    execute_blocks c2_explorer c2_env 1 =
      (some .emptyMasternodeRegistry, c2_explorer, c2_env, []) :=
  ⟨rfl, rfl, (C2_empty_registry_fails_fatally c2_explorer c2_env 0 rfl).1⟩

/-- C3: the chain cursor is updated only by a successfully committed block: on
    any fatal error execute_block returns the explorer exactly as it was, and
    on success last_block becomes the executed block. -/
theorem C3_cursor_updated_only_on_commit (e : Explorer) (env : Env) (b : Block)
    (err : StepError) (e1 : Explorer) (env1 : Env) :
    (execute_block e env b = (some err, e1, env1) → e1 = e) ∧
    (execute_block e env b = (none, e1, env1) → e1.last_block = some b) := by
  constructor
  all_goals intro h
  all_goals unfold execute_block at h
  all_goals repeat' split at h
  all_goals try simp_all
  all_goals repeat' split at h
  all_goals try simp_all
  all_goals rcases h with ⟨hL, hR⟩
  all_goals subst hL
  all_goals rfl

/-- Explorer with one masternode and a committed head at height 3. -/
def c3_explorer : Explorer :=
  { masternodes := [{ pro_tx_hash := 9 }]
    available_contracts := []
    available_strategies := []
    current_execution_strategy := none
    last_block := some { height := 3, time_ms := 300 }
    current_epoch := none
    persisted_strategies := [] }

/-- Oracle whose commit fails for the first block. -/
def c3_env_fail : Env :=
  { bool_draws := []
    range_draws := [0]
    insert_results := []
    begin_results := [true]
    end_results := [some (false, 0)]
    commit_results := [false] }

/-- Oracle for one fully successful block. -/
def c3_env_ok : Env :=
  { bool_draws := []
    range_draws := [0]
    insert_results := []
    begin_results := [true]
    end_results := [some (false, 0)]
    commit_results := [true] }

/-- Environment left after the failed-commit block consumed its entries. -/
def c3_env_fail_after : Env :=
  { bool_draws := []
    range_draws := []
    insert_results := []
    begin_results := []
    end_results := []
    commit_results := [] }

/-- C3 witness: at a concrete failing commit the state is exactly unchanged,
    and at a concrete successful block the cursor advances to that block. -/
theorem C3_cursor_updated_only_on_commit_witness :
    (execute_block c3_explorer c3_env_fail { height := 4, time_ms := 400 } =
        (some .commitFailed, c3_explorer, c3_env_fail_after) ∧
      c3_explorer = c3_explorer) ∧
    (execute_block c3_explorer c3_env_ok { height := 4, time_ms := 400 } =
        (none, { c3_explorer with last_block := some { height := 4, time_ms := 400 } },
          c3_env_fail_after) ∧
      ({ c3_explorer with last_block := some { height := 4, time_ms := 400 } :
          Explorer }).last_block = some { height := 4, time_ms := 400 }) :=
  ⟨⟨rfl, (C3_cursor_updated_only_on_commit c3_explorer c3_env_fail
      { height := 4, time_ms := 400 } .commitFailed c3_explorer
      c3_env_fail_after).1 rfl⟩,
   ⟨rfl, (C3_cursor_updated_only_on_commit c3_explorer c3_env_ok
      { height := 4, time_ms := 400 } .commitFailed
      { c3_explorer with last_block := some { height := 4, time_ms := 400 } }
      c3_env_fail_after).2 rfl⟩⟩

/-- C5: the firing rule of a frequency: chance_per_block = none always fires
    (consuming no draw), Some 0 never fires, and Some 1 always fires, whatever
    uniform draw backs the Bernoulli trial. -/
theorem C5_firing_rule (freq : Frequency) (env : Env) (u : Nat) (rest : List Nat) :
    (freq.chance_per_block = none → op_fires freq env = .ok (true, env)) ∧
    (freq.chance_per_block = some 0 → env.bool_draws = u :: rest →
      op_fires freq env = .ok (false, { env with bool_draws := rest })) ∧
    (freq.chance_per_block = some 1 → env.bool_draws = u :: rest →
      op_fires freq env = .ok (true, { env with bool_draws := rest })) := by
  refine ⟨fun h1 => by simp [op_fires, h1], fun h1 h2 => ?_, fun h1 h2 => ?_⟩
  · simp only [op_fires, h1, h2, gen_bool]
    norm_num
  · simp only [op_fires, h1, h2, gen_bool]
    norm_num

/-- C5 witness: concrete frequencies with no chance, chance 0 and chance 1
    behave as stated on a concrete draw. -/
theorem C5_firing_rule_witness :
    (op_fires { times_per_block_range := (1, 2), chance_per_block := none } c3_env_ok
        = .ok (true, c3_env_ok)) ∧
    (op_fires { times_per_block_range := (1, 2), chance_per_block := some 0 }
        { c3_env_ok with bool_draws := [5] }
        = .ok (false, { c3_env_ok with bool_draws := [] })) ∧
    (op_fires { times_per_block_range := (1, 2), chance_per_block := some 1 }
        { c3_env_ok with bool_draws := [5] }
        = .ok (true, { c3_env_ok with bool_draws := [] })) :=
  ⟨(C5_firing_rule { times_per_block_range := (1, 2), chance_per_block := none }
      c3_env_ok 5 []).1 rfl,
   (C5_firing_rule { times_per_block_range := (1, 2), chance_per_block := some 0 }
      { c3_env_ok with bool_draws := [5] } 5 []).2.1 rfl rfl,
   (C5_firing_rule { times_per_block_range := (1, 2), chance_per_block := some 1 }
      { c3_env_ok with bool_draws := [5] } 5 []).2.2 rfl rfl⟩

/-- C7 (amended): when an operation fires and its count range is degenerate
    (low = high), the count draw panics inside gen_range; the block execution
    aborts with the empty-range error instead of treating it as zero
    documents. -/
theorem C7_degenerate_range_panics (op : DocumentOp) (k : Nat)
    (rest : List (DocumentOp × Frequency)) (fees : FeesAggregate) (env : Env)
    (trace : List (Int × Nat)) :
    run_operations
      ((op, { times_per_block_range := (k, k), chance_per_block := none }) :: rest)
      fees env trace = .error .emptyCountRange := by
  simp [run_operations, op_fires]

/-- Explorer whose loaded strategy has one always-firing operation with the
    degenerate count range 2..2, plus one masternode. -/
def c7_explorer : Explorer :=
  { masternodes := [{ pro_tx_hash := 9 }]
    available_contracts := []
    available_strategies := []
    current_execution_strategy := some ("s1",
      { operations := [({ contract := { document_types := ["niceDocument"] },
                          document_type := "niceDocument" },
                        { times_per_block_range := (2, 2), chance_per_block := none })] })
    last_block := none
    current_epoch := none
    persisted_strategies := [] }

/-- C7 counterexample: with the degenerate range 2..2 the one-block run is
    neither rejected up front nor treated as a zero-document block: it crashes
    with the empty-range panic, no block commits, and the state is unchanged. -/
theorem C7_counterexample :
    (execute_blocks c7_explorer c3_env_ok 1).1 = some .emptyCountRange ∧
    (execute_blocks c7_explorer c3_env_ok 1).2.2.2 = [] ∧
    (execute_blocks c7_explorer c3_env_ok 1).2.1 = c7_explorer :=
  ⟨rfl, rfl, rfl⟩

end DriveExplorer

namespace DriveExplorer

/-- Length of the planned block list. -/
theorem planned_blocks_length (count : Nat) :
    ∀ start, (planned_blocks start count).length = count := by
  induction count with
  | zero => intro start; rfl
  | succ n ih => intro start; simp [planned_blocks, ih]

/-- Element i of the planned block list. -/
theorem planned_blocks_get? (count : Nat) :
    ∀ start i, i < count → (planned_blocks start count).get? i =
      some { height := start + i, time_ms := (start + i) * 100 } := by
  induction count with
  | zero => intro start i hi; omega
  | succ n ih =>
    intro start i hi
    cases i with
    | zero => simp [planned_blocks]
    | succ j =>
      have hj : j < n := by omega
      have := ih (start + 1) j hj
      simp only [planned_blocks, List.get?_cons_succ, this]
      congr 2
      · omega
      · omega

/-- Loop invariant of execute_blocks_from: a fully successful run appends
    exactly the planned blocks to the accumulated trace. -/
theorem execute_blocks_from_trace (count : Nat) :
    ∀ (e : Explorer) (env : Env) (height : Nat) (trace : List Block)
      (e2 : Explorer) (env2 : Env) (trace2 : List Block),
    execute_blocks_from e env height count trace = (none, e2, env2, trace2) →
    trace2 = trace ++ planned_blocks height count := by
  induction count with
  | zero =>
    intro e env height trace e2 env2 trace2 h
    simp [execute_blocks_from, planned_blocks] at h ⊢
    exact h.2.2.symm
  | succ n ih =>
    intro e env height trace e2 env2 trace2 h
    unfold execute_blocks_from at h
    split at h
    · simp_all
    · have := ih _ _ _ _ _ _ _ h
      rw [this]
      simp [planned_blocks]

/-- C1 (amended): a fully successful run of execute_blocks executes exactly
    the planned blocks: the first executed block has height equal to the last
    committed height itself (the committed head is re-executed; height 1 when
    no head exists) and each block has time_ms = height * 100; consecutive
    executed blocks increase height by exactly 1 and time_ms by exactly 100. -/
theorem C1_run_reexecutes_head_then_steps (e : Explorer) (env : Env)
    (count : Nat) (e2 : Explorer) (env2 : Env) (tr : List Block)
    (h : execute_blocks e env count = (none, e2, env2, tr)) :
    tr = planned_blocks (e.last_block.getD { height := 1, time_ms := 100 }).height count ∧
    (∀ i, i < count → tr.get? i =
      some { height := (e.last_block.getD { height := 1, time_ms := 100 }).height + i,
             time_ms := ((e.last_block.getD { height := 1, time_ms := 100 }).height + i) * 100 }) ∧
    (∀ i b1 b2, tr.get? i = some b1 → tr.get? (i + 1) = some b2 →
      b2.height = b1.height + 1 ∧ b2.time_ms = b1.time_ms + 100) := by
  unfold execute_blocks at h
  have htr := execute_blocks_from_trace count e env _ [] e2 env2 tr h
  simp only [List.nil_append] at htr
  subst htr
  refine ⟨rfl, fun i hi => planned_blocks_get? count _ i hi, fun i b1 b2 h1 h2 => ?_⟩
  set start := (e.last_block.getD { height := 1, time_ms := 100 }).height with hstart
  have hlen : (planned_blocks start count).length = count := planned_blocks_length count start
  have hi1 : i + 1 < count := by
    obtain ⟨hw, _⟩ := List.get?_eq_some.mp h2
    rw [hlen] at hw
    exact hw
  have hi : i < count := by omega
  rw [planned_blocks_get? count start i hi] at h1
  rw [planned_blocks_get? count start (i + 1) hi1] at h2
  obtain rfl : b1 = { height := start + i, time_ms := (start + i) * 100 } := by
    exact (Option.some_inj.mp h1).symm
  obtain rfl : b2 = { height := start + (i + 1), time_ms := (start + (i + 1)) * 100 } := by
    exact (Option.some_inj.mp h2).symm
  constructor <;> simp <;> omega

/-- C1 witness: a successful two-block run from a fresh chain (no head)
    produces exactly the planned blocks 1 and 2 with their stepped times. -/
def c1_env_two : Env :=
  { bool_draws := []
    range_draws := [0, 0]
    insert_results := []
    begin_results := [true, true]
    end_results := [some (false, 0), some (false, 0)]
    commit_results := [true, true] }

/-- Explorer with one masternode and no committed head yet. -/
def c1_explorer_fresh : Explorer :=
  { masternodes := [{ pro_tx_hash := 9 }]
    available_contracts := []
    available_strategies := []
    current_execution_strategy := none
    last_block := none
    current_epoch := none
    persisted_strategies := [] }

/-- Final explorer state of the fresh two-block run. -/
def c1_explorer_fresh_after : Explorer :=
  { c1_explorer_fresh with last_block := some { height := 2, time_ms := 200 } }

/-- Exhausted oracle left by the fresh two-block run. -/
def c1_env_two_after : Env :=
  { bool_draws := []
    range_draws := []
    insert_results := []
    begin_results := []
    end_results := []
    commit_results := [] }

theorem C1_run_reexecutes_head_then_steps_witness :
    execute_blocks c1_explorer_fresh c1_env_two 2 =
      (none, c1_explorer_fresh_after, c1_env_two_after,
        [{ height := 1, time_ms := 100 }, { height := 2, time_ms := 200 }]) ∧
    [{ height := 1, time_ms := 100 }, { height := 2, time_ms := 200 }] =
      planned_blocks
        (c1_explorer_fresh.last_block.getD { height := 1, time_ms := 100 }).height 2 :=
  ⟨rfl, (C1_run_reexecutes_head_then_steps c1_explorer_fresh c1_env_two 2
      c1_explorer_fresh_after c1_env_two_after
      [{ height := 1, time_ms := 100 }, { height := 2, time_ms := 200 }] rfl).1⟩

/-- C1 counterexample: with a committed head at height 3 (time 300), the first
    block of the next run has height 3 and time 300 again, not height 4 and
    time 400 as the claim states. -/
theorem C1_counterexample :
    c3_explorer.last_block = some { height := 3, time_ms := 300 } ∧
    (execute_blocks c3_explorer c3_env_ok 1).1 = none ∧
    (execute_blocks c3_explorer c3_env_ok 1).2.2.2 = [{ height := 3, time_ms := 300 }] ∧
    ((3 : Nat) ≠ 3 + 1 ∧ (300 : Nat) ≠ 300 + 100) :=
  ⟨rfl, rfl, rfl, by decide⟩

end DriveExplorer

namespace DriveExplorer

/-- Inner-loop invariant: a successful document-insertion loop appends to the
    trace exactly the fee pairs it consumed, and the final aggregate is the
    fold of the source's accumulation step over those pairs. -/
theorem insert_documents_ok (count : Nat) :
    ∀ (fees : FeesAggregate) (env : Env) (trace : List (Int × Nat))
      (fees2 : FeesAggregate) (env2 : Env) (trace2 : List (Int × Nat)),
    insert_documents count fees env trace = .ok (fees2, env2, trace2) →
    ∃ l, trace2 = trace ++ l ∧
      fees2 = l.foldl (fun f p => fees_add f p.1 p.2) fees := by
  induction count with
  | zero =>
    intro fees env trace fees2 env2 trace2 h
    simp [insert_documents] at h
    exact ⟨[], by simp [h.2.2.symm], by simp [h.1.symm]⟩
  | succ n ih =>
    intro fees env trace fees2 env2 trace2 h
    unfold insert_documents at h
    split at h
    · simp_all
    · simp_all
    · rename_i storage_fee processing_fee rest heq
      obtain ⟨l, hl1, hl2⟩ := ih _ _ _ _ _ _ h
      refine ⟨(storage_fee, processing_fee) :: l, ?_, ?_⟩
      · rw [hl1]; simp
      · rw [hl2]; simp

/-- Outer-loop invariant: a successful pass over the operation list appends to
    the trace exactly the fee pairs returned by the insertions it performed,
    and the final aggregate is the fold of the accumulation step over them. -/
theorem run_operations_ok (ops : List (DocumentOp × Frequency)) :
    ∀ (fees : FeesAggregate) (env : Env) (trace : List (Int × Nat))
      (fees2 : FeesAggregate) (env2 : Env) (trace2 : List (Int × Nat)),
    run_operations ops fees env trace = .ok (fees2, env2, trace2) →
    ∃ l, trace2 = trace ++ l ∧
      fees2 = l.foldl (fun f p => fees_add f p.1 p.2) fees := by
  induction ops with
  | nil =>
    intro fees env trace fees2 env2 trace2 h
    simp [run_operations] at h
    exact ⟨[], by simp [h.2.2.symm], by simp [h.1.symm]⟩
  | cons hd tl ih =>
    intro fees env trace fees2 env2 trace2 h
    obtain ⟨op, freq⟩ := hd
    unfold run_operations at h
    repeat' split at h
    all_goals try (cases h)
    · rename_i hins
      obtain ⟨l1, ha1, ha2⟩ := insert_documents_ok _ _ _ _ _ _ _ hins
      obtain ⟨l2, hb1, hb2⟩ := ih _ _ _ _ _ _ h
      refine ⟨l1 ++ l2, ?_, ?_⟩
      · rw [hb1, ha1, List.append_assoc]
      · rw [hb2, ha2, List.foldl_append]
    · exact ih _ _ _ _ _ _ h

/-- C4 (amended): the fees aggregate produced for a block equals the fold,
    starting from (0, 0), of the source's accumulation step (u64 wrapping
    addition, with the i64 storage fee cast to u64) over precisely the fee
    pairs returned by the document insertions performed in that block. -/
theorem C4_fees_are_wrapped_fold (e : Explorer) (env : Env) (epoch_index : Nat)
    (fees : FeesAggregate) (env2 : Env) (tr : List (Int × Nat))
    (h : execute_current_strategy e env epoch_index = .ok (fees, env2, tr)) :
    fees = fees_of_list tr := by
  unfold execute_current_strategy at h
  split at h
  · simp at h
    rw [h.2.2, ← h.1]
    rfl
  · obtain ⟨l, hl1, hl2⟩ := run_operations_ok _ _ _ _ _ _ _ h
    rw [hl1, hl2]
    simp [fees_of_list]

/-- Explorer whose loaded strategy is one always-firing operation inserting
    exactly one document per block. -/
def c4_explorer : Explorer :=
  { masternodes := [{ pro_tx_hash := 9 }]
    available_contracts := []
    available_strategies := []
    current_execution_strategy := some ("s1",
      { operations := [({ contract := { document_types := ["niceDocument"] },
                          document_type := "niceDocument" },
                        { times_per_block_range := (1, 2), chance_per_block := none })] })
    last_block := none
    current_epoch := none
    persisted_strategies := [] }

/-- Oracle for one strategy pass: one count draw and one insertion returning
    storage fee -1 and processing fee 0. -/
def c4_env : Env :=
  { bool_draws := []
    range_draws := [9]
    insert_results := [some (-1, 0)]
    begin_results := []
    end_results := []
    commit_results := [] }

/-- Oracle left after the strategy pass consumed its entries. -/
def c4_env_after : Env :=
  { bool_draws := []
    range_draws := []
    insert_results := []
    begin_results := []
    end_results := []
    commit_results := [] }

/-- C4 witness: on the concrete one-insertion block the hypothesis of the
    amended theorem holds and the aggregate equals the wrapped fold. -/
theorem C4_fees_are_wrapped_fold_witness :
    execute_current_strategy c4_explorer c4_env 0 =
      .ok ({ storage_fees := U64_MAX, processing_fees := 0 }, c4_env_after, [(-1, 0)]) ∧
    ({ storage_fees := U64_MAX, processing_fees := 0 } : FeesAggregate) =
      fees_of_list [(-1, 0)] :=
  ⟨rfl, C4_fees_are_wrapped_fold c4_explorer c4_env 0
    { storage_fees := U64_MAX, processing_fees := 0 } c4_env_after [(-1, 0)] rfl⟩

/-- C4 counterexample: an insertion returning storage fee -1 makes the code's
    aggregate 2^64 - 1 (i64-to-u64 cast plus wrapping addition), while the
    spec's saturating/non-negative accumulation of the same single pair gives
    0; the two disagree, so the claimed saturating aggregation is not what the
    code computes. -/
theorem C4_counterexample :
    execute_current_strategy c4_explorer c4_env 0 =
      .ok ({ storage_fees := U64_MAX, processing_fees := 0 }, c4_env_after, [(-1, 0)]) ∧
    sat_fees_of_list [(-1, 0)] = { storage_fees := 0, processing_fees := 0 } ∧
    ({ storage_fees := U64_MAX, processing_fees := 0 } : FeesAggregate) ≠
      { storage_fees := 0, processing_fees := 0 } :=
  ⟨rfl, rfl, by decide⟩

end DriveExplorer

namespace DriveExplorer

/-- Values accepted by the u16 parser are below 2^16. -/
theorem parse_u16_lt (s : String) (v : Nat) (h : parse_u16 s = some v) :
    v < 2 ^ 16 := by
  unfold parse_u16 at h
  split at h
  · cases h
  · split at h
    · simp_all
    · cases h

/-- Both bounds returned by get_u16_range_from_input are u16 values. -/
theorem get_u16_range_from_input_lt (s : String) (lo hi : Nat)
    (h : get_u16_range_from_input s = some (lo, hi)) :
    lo < 2 ^ 16 ∧ hi < 2 ^ 16 := by
  simp only [get_u16_range_from_input] at h
  split at h
  · cases h
  · split at h
    · rename_i hlo hhi
      obtain ⟨rfl, rfl⟩ := Prod.mk.injEq .. ▸ Option.some_inj.mp h
      exact ⟨parse_u16_lt _ _ hlo, parse_u16_lt _ _ hhi⟩
    · cases h

end DriveExplorer

namespace DriveExplorer

/-- C6 (amended): a successful add_op appends exactly one operation to the
    loaded strategy, and the only bound the command enforces on the appended
    frequency is the one the parser gives: both range ends are u16 values
    (below 2^16); low <= high and a chance inside [0, 1] are not checked. -/
theorem C6_add_op_appends_u16_bounds (e : Explorer) (input : String)
    (e2 : Explorer) (a : String) (s : Strategy)
    (h : prompt_add_op e input = (none, e2))
    (hcur : e.current_execution_strategy = some (a, s)) :
    ∃ op freq,
      e2.current_execution_strategy =
        some (a, { operations := s.operations ++ [(op, freq)] }) ∧
      freq.times_per_block_range.1 < 2 ^ 16 ∧
      freq.times_per_block_range.2 < 2 ^ 16 := by
  simp only [prompt_add_op, add_strategy_op, hcur] at h
  repeat' split at h
  all_goals simp only [Prod.mk.injEq] at h
  all_goals try (exact Option.noConfusion h.1)
  rename_i x1 tpr hrange x2 cpb hchance
  obtain ⟨-, h2⟩ := h
  subst h2
  refine ⟨_, _, rfl, ?_, ?_⟩
  · exact (get_u16_range_from_input_lt _ tpr.1 tpr.2 (by rw [hrange])).1
  · exact (get_u16_range_from_input_lt _ tpr.1 tpr.2 (by rw [hrange])).2

/-- Explorer with one available contract (one document type) and an empty
    loaded strategy. -/
def c6_explorer : Explorer :=
  { masternodes := []
    available_contracts := [("c1", { document_types := ["niceDocument"] })]
    available_strategies := []
    current_execution_strategy := some ("s1", { operations := [] })
    last_block := none
    current_epoch := none
    persisted_strategies := [] }

/-- State after the inverted-range add_op on c6_explorer. -/
def c6_explorer_after : Explorer :=
  { c6_explorer with current_execution_strategy := some ("s1",
      { operations := [({ contract := { document_types := ["niceDocument"] },
                          document_type := "niceDocument" },
                        { times_per_block_range := (5, 2),
                          chance_per_block := none })] }) }

/-- C6 counterexample: the add_op command accepts the inverted range 5..2 and
    stores a Frequency with low = 5 > high = 2, violating the claimed
    invariant low <= high. -/
theorem C6_counterexample :
    prompt_add_op c6_explorer "add_op c1 niceDocument 5..2" =
      (none, c6_explorer_after) ∧ ¬ (5 ≤ 2) :=
  ⟨rfl, by decide⟩

/-- C6 witness: the amended theorem applied at the concrete inverted-range
    command; the appended frequency exists and its bounds are u16 values. -/
theorem C6_add_op_appends_u16_bounds_witness :
    ∃ op freq,
      c6_explorer_after.current_execution_strategy =
        some ("s1", { operations := ([] : List (DocumentOp × Frequency)) ++ [(op, freq)] }) ∧
      freq.times_per_block_range.1 < 2 ^ 16 ∧
      freq.times_per_block_range.2 < 2 ^ 16 :=
  C6_add_op_appends_u16_bounds c6_explorer "add_op c1 niceDocument 5..2"
    c6_explorer_after "s1" { operations := [] } rfl rfl

end DriveExplorer

namespace DriveExplorer

/-- C8: dup_strategy fails with the no-loaded-strategy error (state untouched)
    when nothing is loaded; otherwise it persists the current loaded strategy
    under its existing alias into the store and to the external resource,
    makes the new alias the loaded strategy with an identical operation list,
    and the copy is deep: a later add_strategy_op on the loaded duplicate
    leaves the stored original unchanged while extending only the loaded
    operation list. -/
theorem C8_dup_strategy_deep_copy (e : Explorer) (a2 : String) :
    (e.current_execution_strategy = none →
      dup_strategy e a2 = (some .noLoadedStrategy, e)) ∧
    (∀ prev s, e.current_execution_strategy = some (prev, s) →
      (dup_strategy e a2).1 = none ∧
      (dup_strategy e a2).2.available_strategies =
        alist_insert e.available_strategies prev s ∧
      (dup_strategy e a2).2.persisted_strategies =
        alist_insert e.available_strategies prev s ∧
      (dup_strategy e a2).2.current_execution_strategy = some (a2, s) ∧
      (∀ op freq,
        alist_lookup
          (add_strategy_op (dup_strategy e a2).2 op freq).2.available_strategies
          prev = some s ∧
        (add_strategy_op (dup_strategy e a2).2 op freq).2.current_execution_strategy
          = some (a2, { operations := s.operations ++ [(op, freq)] }))) := by
  constructor
  · intro h
    simp [dup_strategy, h]
  · intro prev s h
    simp only [dup_strategy, h, save_available_strategies]
    refine ⟨trivial, trivial, trivial, trivial, fun op freq => ?_⟩
    simp only [add_strategy_op]
    exact ⟨alist_lookup_insert_self _ _ _, trivial⟩

/-- Explorer with a loaded strategy of one operation and an empty store. -/
def c8_explorer : Explorer :=
  { masternodes := []
    available_contracts := []
    available_strategies := []
    current_execution_strategy := some ("s1",
      { operations := [({ contract := { document_types := ["niceDocument"] },
                          document_type := "niceDocument" },
                        { times_per_block_range := (1, 3),
                          chance_per_block := none })] })
    last_block := none
    current_epoch := none
    persisted_strategies := [] }

/-- Operation used to mutate the duplicate in the C8 witness. -/
def c8_op : DocumentOp :=
  { contract := { document_types := ["person"] }, document_type := "person" }

/-- Frequency used to mutate the duplicate in the C8 witness. -/
def c8_freq : Frequency :=
  { times_per_block_range := (2, 4), chance_per_block := some 1 }

/-- The one-operation list of the loaded strategy of c8_explorer. -/
def c8_ops : List (DocumentOp × Frequency) :=
  [({ contract := { document_types := ["niceDocument"] },
      document_type := "niceDocument" },
    { times_per_block_range := (1, 3), chance_per_block := none })]

/-- C8 witness: on the concrete loaded state, duplication under a new alias
    behaves as the theorem states, and with no loaded strategy it fails. -/
theorem C8_dup_strategy_deep_copy_witness :
    (dup_strategy c2_explorer "s9" = (some .noLoadedStrategy, c2_explorer)) ∧
    ((dup_strategy c8_explorer "s9").1 = none ∧
      (dup_strategy c8_explorer "s9").2.available_strategies =
        alist_insert c8_explorer.available_strategies "s1" { operations := c8_ops } ∧
      (dup_strategy c8_explorer "s9").2.persisted_strategies =
        alist_insert c8_explorer.available_strategies "s1" { operations := c8_ops } ∧
      (dup_strategy c8_explorer "s9").2.current_execution_strategy =
        some ("s9", { operations := c8_ops }) ∧
      (alist_lookup
          (add_strategy_op (dup_strategy c8_explorer "s9").2 c8_op c8_freq).2.available_strategies
          "s1" = some { operations := c8_ops } ∧
        (add_strategy_op (dup_strategy c8_explorer "s9").2 c8_op c8_freq).2.current_execution_strategy
          = some ("s9", { operations := c8_ops ++ [(c8_op, c8_freq)] }))) :=
  ⟨(C8_dup_strategy_deep_copy c2_explorer "s9").1 rfl,
   by
    have h := (C8_dup_strategy_deep_copy c8_explorer "s9").2 "s1"
      { operations := c8_ops } rfl
    exact ⟨h.1, h.2.1, h.2.2.1, h.2.2.2.1, h.2.2.2.2 c8_op c8_freq⟩⟩

/-- C10: neither new_strategy nor load_strategy writes the strategy store or
    the persisted resource: both only replace the loaded slot (discarding
    whatever was loaded, saved or not), and load_strategy installs a clone of
    the stored strategy when the alias exists. -/
theorem C10_new_and_load_do_not_write_store (e : Explorer) (a : String) :
    (new_strategy e a).available_strategies = e.available_strategies ∧
    (new_strategy e a).persisted_strategies = e.persisted_strategies ∧
    (new_strategy e a).current_execution_strategy = some (a, { operations := [] }) ∧
    (load_strategy e a).2.available_strategies = e.available_strategies ∧
    (load_strategy e a).2.persisted_strategies = e.persisted_strategies ∧
    (∀ s, alist_lookup e.available_strategies a = some s →
      load_strategy e a = (none, { e with current_execution_strategy := some (a, s) })) := by
  refine ⟨rfl, rfl, rfl, ?_, ?_, ?_⟩
  · unfold load_strategy
    repeat' split
    all_goals rfl
  · unfold load_strategy
    repeat' split
    all_goals rfl
  · intro s hs
    have hne : ¬ e.available_strategies.length = 0 := by
      intro h0
      rw [List.length_eq_zero] at h0
      rw [h0] at hs
      simp [alist_lookup] at hs
    unfold load_strategy
    rw [if_neg hne, hs]

/-- Explorer with one stored strategy and unsaved operations in the loaded
    slot (the loaded list differs from the stored one). -/
def c10_explorer : Explorer :=
  { masternodes := []
    available_contracts := []
    available_strategies := [("s1", { operations := [] })]
    current_execution_strategy := some ("s1", { operations := c8_ops })
    last_block := none
    current_epoch := none
    persisted_strategies := [("s1", { operations := [] })] }

/-- C10 witness: on the concrete state with unsaved loaded operations, both
    commands leave the store and persistence untouched and replace the loaded
    slot; loading the existing alias installs the stored (empty) strategy. -/
theorem C10_new_and_load_do_not_write_store_witness :
    (new_strategy c10_explorer "s2").available_strategies =
      c10_explorer.available_strategies ∧
    (new_strategy c10_explorer "s2").persisted_strategies =
      c10_explorer.persisted_strategies ∧
    (new_strategy c10_explorer "s2").current_execution_strategy =
      some ("s2", { operations := [] }) ∧
    (load_strategy c10_explorer "s1").2.available_strategies =
      c10_explorer.available_strategies ∧
    (load_strategy c10_explorer "s1").2.persisted_strategies =
      c10_explorer.persisted_strategies ∧
    load_strategy c10_explorer "s1" =
      (none, { c10_explorer with
        current_execution_strategy := some ("s1", { operations := [] }) }) :=
  by
    have h2 := C10_new_and_load_do_not_write_store c10_explorer "s2"
    have h1 := C10_new_and_load_do_not_write_store c10_explorer "s1"
    exact ⟨h2.1, h2.2.1, h2.2.2.1, h1.2.2.2.1, h1.2.2.2.2.1,
      h1.2.2.2.2.2 { operations := [] } rfl⟩

end DriveExplorer

namespace DriveExplorer

/-- C9: prompt_execute_blocks accepts a count only when the input has exactly
    one argument that parses as a usize in [1, 10000]; on any user-input error
    (wrong argument count, non-integer, out of range) it reports the error and
    nothing runs: no fatal error, state and oracle unchanged, no block
    executed; a parsed value of 0 or above 10000 always yields the
    out-of-range error. -/
theorem C9_count_validated (e : Explorer) (env : Env) (input : String) :
    ((prompt_execute_blocks e env input).1.isSome = true →
      (prompt_execute_blocks e env input).2.1 = none ∧
      (prompt_execute_blocks e env input).2.2.1 = e ∧
      (prompt_execute_blocks e env input).2.2.2.1 = env ∧
      (prompt_execute_blocks e env input).2.2.2.2 = []) ∧
    ((prompt_execute_blocks e env input).1 = none →
      ∃ v, (split_whitespace input).length = 2 ∧
        parse_usize ((split_whitespace input).getD 1 "") = some v ∧
        0 < v ∧ v ≤ 10000) ∧
    (∀ v, (split_whitespace input).length = 2 →
      parse_usize ((split_whitespace input).getD 1 "") = some v →
      (v = 0 ∨ 10000 < v) →
      (prompt_execute_blocks e env input).1 = some .outOfRange) := by
  refine ⟨?_, ?_, ?_⟩
  · simp only [prompt_execute_blocks]
    repeat' split
    all_goals intro h
    all_goals simp_all
  · simp only [prompt_execute_blocks]
    repeat' split
    all_goals intro h
    all_goals try simp_all
    all_goals omega
  · intro v hlen hparse hbad
    have h1 : ¬ (split_whitespace input).length > 2 := by omega
    have h2 : ¬ (split_whitespace input).length < 2 := by omega
    have h3 : ¬ (0 < v ∧ v ≤ 10000) := by omega
    simp only [prompt_execute_blocks, if_neg h1, if_neg h2, hparse, if_neg h3]

/-- C9 witness: the concrete command with count 0 is rejected with the
    out-of-range user error; state, oracle and trace are untouched. -/
theorem C9_count_validated_witness :
    (prompt_execute_blocks c3_explorer c2_env "execute_blocks 0").1 =
      some .outOfRange ∧
    ((prompt_execute_blocks c3_explorer c2_env "execute_blocks 0").2.1 = none ∧
      (prompt_execute_blocks c3_explorer c2_env "execute_blocks 0").2.2.1 = c3_explorer ∧
      (prompt_execute_blocks c3_explorer c2_env "execute_blocks 0").2.2.2.1 = c2_env ∧
      (prompt_execute_blocks c3_explorer c2_env "execute_blocks 0").2.2.2.2 = []) :=
  ⟨(C9_count_validated c3_explorer c2_env "execute_blocks 0").2.2 0 rfl rfl
      (Or.inl rfl),
   (C9_count_validated c3_explorer c2_env "execute_blocks 0").1 rfl⟩

end DriveExplorer
